import Mathlib

/-
Shallow embedding of the scheduling pipeline of a small Express server.
The repository holds three revisions of the same server:
  * `server.js`, first revision  (lines 1-483)    — called V1 below,
  * `server.js`, second revision (lines 484-1128) — called V2 below,
  * `unnamed/part_000`                            — called P0 below.

Modelling conventions, used throughout:
  * JS falsy request/intent fields (undefined, null, the empty string) are
    modelled as `none`; a present truthy string field is `some s`.
  * ISO datetime strings are modelled by the instant they denote, as integer
    milliseconds since the epoch; under this representation
    `new Date(ms).toISOString()` and `new Date(s).getTime()` are identities.
    Intent datetime strings that do not parse as dates are outside the model.
  * Each network call of a handler (LLM completion, calendar insert) is
    modelled by passing the call's outcome as an explicit `Except` argument;
    the `calls` field of a handler's output records, in order, which outbound
    calls the handler actually performed.
  * The two `Date.now()` occurrences in the event literal are modelled by the
    explicit arguments `now1` and `now2` (the instants at which the two reads
    happen); `Intl.DateTimeFormat().resolvedOptions().timeZone` is modelled by
    the argument `tz`, with `""` standing for an undefined resolved zone.
  * The credential `Map` (`userTokens`) is modelled as an association list
    whose states of interest have unique keys.
-/

/-- JS `String.prototype.includes`, prefix test at the head of a char list. -/
def charsPref : List Char → List Char → Bool
  | [], _ => true
  | _ :: _, [] => false
  | a :: as, b :: bs => a == b && charsPref as bs

/-- JS `String.prototype.includes`, contiguous-sublist test on char lists. -/
def charsIncl (needle : List Char) : List Char → Bool
  | [] => needle.isEmpty
  | c :: rest => charsPref needle (c :: rest) || charsIncl needle rest

/-- JS `hay.includes(sub)`: is `sub` a contiguous substring of `hay`? -/
def strIncludes (hay sub : String) : Bool :=
  charsIncl sub.toList hay.toList

/-- JSON values, as produced by `JSON.parse`.  Numbers keep their source
lexeme (no claim computes with a parsed number). -/
inductive JVal where
  | null
  | bool (b : Bool)
  | num (lexeme : String)
  | str (s : String)
  | arr (elems : List JVal)
  | obj (fields : List (String × JVal))

namespace JSON

/-- JSON whitespace (the four characters allowed by the JSON grammar). -/
def isWs (c : Char) : Bool :=
  c == ' ' || c == '\n' || c == '\t' || c == '\r'

/-- Drop leading JSON whitespace. -/
def skipWs : List Char → List Char
  | [] => []
  | c :: cs => if isWs c then skipWs cs else c :: cs

/-- Value of a hexadecimal digit. -/
def hexVal (c : Char) : Option Nat :=
  if '0' ≤ c ∧ c ≤ '9' then some (c.toNat - '0'.toNat)
  else if 'a' ≤ c ∧ c ≤ 'f' then some (c.toNat - 'a'.toNat + 10)
  else if 'A' ≤ c ∧ c ≤ 'F' then some (c.toNat - 'A'.toNat + 10)
  else none

/-- Lex a JSON string body (the opening quote already consumed), returning
the string and the remaining input.  Fuel-driven for structural recursion. -/
def lexStr : Nat → List Char → List Char → Option (String × List Char)
  | 0, _, _ => none
  | _ + 1, _, [] => none
  | fuel + 1, acc, c :: cs =>
    if c == '"' then some (String.mk acc.reverse, cs)
    else if c == '\\' then
      match cs with
      | [] => none
      | e :: cs2 =>
        if e == '"' then lexStr fuel ('"' :: acc) cs2
        else if e == '\\' then lexStr fuel ('\\' :: acc) cs2
        else if e == '/' then lexStr fuel ('/' :: acc) cs2
        else if e == 'n' then lexStr fuel ('\n' :: acc) cs2
        else if e == 't' then lexStr fuel ('\t' :: acc) cs2
        else if e == 'r' then lexStr fuel ('\r' :: acc) cs2
        else if e == 'b' then lexStr fuel ('\x08' :: acc) cs2
        else if e == 'f' then lexStr fuel ('\x0c' :: acc) cs2
        else if e == 'u' then
          match cs2 with
          | h1 :: h2 :: h3 :: h4 :: cs3 =>
            match hexVal h1, hexVal h2, hexVal h3, hexVal h4 with
            | some a, some b, some c2, some d2 =>
              lexStr fuel (Char.ofNat (((a * 16 + b) * 16 + c2) * 16 + d2) :: acc) cs3
            | _, _, _, _ => none
          | _ => none
        else none
    else if c.toNat < 32 then none
    else lexStr fuel (c :: acc) cs

/-- Longest leading run of decimal digits. -/
def spanDigits : List Char → List Char × List Char
  | [] => ([], [])
  | c :: cs =>
    if c.isDigit then
      let p := spanDigits cs
      (c :: p.1, p.2)
    else ([], c :: cs)

/-- Lex the integer part of a JSON number (no leading zeros). -/
def lexInt : List Char → Option (List Char × List Char)
  | [] => none
  | c :: cs =>
    if c == '0' then
      match cs with
      | d :: _ => if d.isDigit then none else some ([c], cs)
      | [] => some ([c], [])
    else if c.isDigit then
      let p := spanDigits cs
      some (c :: p.1, p.2)
    else none

/-- Lex an optional JSON fraction part. -/
def lexFrac : List Char → Option (List Char × List Char)
  | '.' :: cs =>
    let p := spanDigits cs
    if p.1.isEmpty then none else some ('.' :: p.1, p.2)
  | cs => some ([], cs)

/-- Lex an optional JSON exponent part. -/
def lexExp : List Char → Option (List Char × List Char)
  | [] => some ([], [])
  | c :: cs =>
    if c == 'e' || c == 'E' then
      let sp : List Char × List Char :=
        match cs with
        | s :: t => if s == '+' || s == '-' then ([s], t) else ([], s :: t)
        | [] => ([], [])
      let p := spanDigits sp.2
      if p.1.isEmpty then none else some (c :: (sp.1 ++ p.1), p.2)
    else some ([], c :: cs)

/-- Lex a JSON number, returning its lexeme. -/
def lexNumber (cs : List Char) : Option (String × List Char) :=
  let sg : List Char × List Char :=
    match cs with
    | '-' :: t => (['-'], t)
    | _ => ([], cs)
  match lexInt sg.2 with
  | none => none
  | some (ip, cs1) =>
    match lexFrac cs1 with
    | none => none
    | some (fp, cs2) =>
      match lexExp cs2 with
      | none => none
      | some (ep, rest) => some (String.mk (sg.1 ++ ip ++ fp ++ ep), rest)

mutual

/-- Parse one JSON value (fuel-driven recursive descent). -/
def parseVal : Nat → List Char → Option (JVal × List Char)
  | 0, _ => none
  | fuel + 1, cs =>
    match skipWs cs with
    | [] => none
    | c :: rest =>
      if c == '{' then parseObj fuel rest
      else if c == '[' then parseArr fuel rest
      else if c == '"' then
        match lexStr (rest.length + 1) [] rest with
        | some (s, rest2) => some (JVal.str s, rest2)
        | none => none
      else if c == 't' then
        match rest with
        | 'r' :: 'u' :: 'e' :: r2 => some (JVal.bool true, r2)
        | _ => none
      else if c == 'f' then
        match rest with
        | 'a' :: 'l' :: 's' :: 'e' :: r2 => some (JVal.bool false, r2)
        | _ => none
      else if c == 'n' then
        match rest with
        | 'u' :: 'l' :: 'l' :: r2 => some (JVal.null, r2)
        | _ => none
      else
        match lexNumber (c :: rest) with
        | some (s, r2) => some (JVal.num s, r2)
        | none => none

/-- Parse an object body, the `{` already consumed. -/
def parseObj : Nat → List Char → Option (JVal × List Char)
  | 0, _ => none
  | fuel + 1, cs =>
    match skipWs cs with
    | '}' :: rest => some (JVal.obj [], rest)
    | cs2 => parseMembers fuel cs2 []

/-- Parse the members of a non-empty object. -/
def parseMembers : Nat → List Char → List (String × JVal) → Option (JVal × List Char)
  | 0, _, _ => none
  | fuel + 1, cs, acc =>
    match skipWs cs with
    | '"' :: rest =>
      match lexStr (rest.length + 1) [] rest with
      | none => none
      | some (key, rest2) =>
        match skipWs rest2 with
        | ':' :: rest3 =>
          match parseVal fuel rest3 with
          | none => none
          | some (v, rest4) =>
            match skipWs rest4 with
            | ',' :: rest5 => parseMembers fuel rest5 (acc ++ [(key, v)])
            | '}' :: rest5 => some (JVal.obj (acc ++ [(key, v)]), rest5)
            | _ => none
        | _ => none
    | _ => none

/-- Parse an array body, the `[` already consumed. -/
def parseArr : Nat → List Char → Option (JVal × List Char)
  | 0, _ => none
  | fuel + 1, cs =>
    match skipWs cs with
    | ']' :: rest => some (JVal.arr [], rest)
    | cs2 => parseElems fuel cs2 []

/-- Parse the elements of a non-empty array. -/
def parseElems : Nat → List Char → List JVal → Option (JVal × List Char)
  | 0, _, _ => none
  | fuel + 1, cs, acc =>
    match parseVal fuel cs with
    | none => none
    | some (v, rest) =>
      match skipWs rest with
      | ',' :: rest2 => parseElems fuel rest2 (acc ++ [v])
      | ']' :: rest2 => some (JVal.arr (acc ++ [v]), rest2)
      | _ => none

end

/-- JS `JSON.parse`: parse a complete JSON document (whitespace-padded),
`none` models the thrown `SyntaxError`. -/
def parse (s : String) : Option JVal :=
  match parseVal (s.length + 1) s.toList with
  | some (v, rest) => if (skipWs rest).isEmpty then some v else none
  | none => none

end JSON

/-- The regex match `answer.match(/\x7b[\s\S]*\x7d/)` used by all three
revisions of `parseScheduleRequest`: the greedy pattern matches from the
first `{` of the text to the last `}`, provided some `}` follows the
first `{`. -/
def jsonMatch (s : String) : Option String :=
  let cs := s.toList
  match cs.findIdx? (fun c => c == '{'),
        (cs.reverse.findIdx? (fun c => c == '}')).map (fun k => cs.length - 1 - k) with
  | some i, some j =>
    if i < j then some (String.mk ((cs.drop i).take (j - i + 1))) else none
  | _, _ => none

/-- The JSON-extraction step of `parseScheduleRequest` (V1 lines 243-255,
P0 lines 179-184; the network call is modelled by passing the provider's
first candidate text `answer` directly).  Source:
`const jsonMatch = answer.match(...); jsonMatch ? JSON.parse(jsonMatch[0]) : \x7b\x7d`.
A `JSON.parse` failure throws a `SyntaxError`, which V1 rethrows from its
catch block and P0 does not catch at all; both are the `Except.error` case. -/
def parseScheduleRequest (answer : String) : Except String JVal :=
  match jsonMatch answer with
  | none => Except.ok (JVal.obj [])
  | some m =>
    match JSON.parse m with
    | some v => Except.ok v
    | none => Except.error ("SyntaxError: Unexpected token in JSON at: " ++ m)

/-- A stored OAuth grant.  The handlers treat the stored token object as
opaque (it is only put, read, deleted and passed to `setCredentials`). -/
structure Tokens where
  access_token : String
  refresh_token : String
deriving DecidableEq

/-- The in-memory credential store `userTokens = new Map()`, as an
association list; `Map` states have unique keys. -/
abbrev MapStore := List (String × Tokens)

/-- `userTokens.get(userId)`. -/
def mget : MapStore → String → Option Tokens
  | [], _ => none
  | (k, v) :: rest, key => if k = key then some v else mget rest key

/-- `userTokens.delete(userId)`.  A `Map` holds at most one entry per key;
removing every matching entry agrees with `Map.delete` on such states. -/
def mdelete : MapStore → String → MapStore
  | [], _ => []
  | (k, v) :: rest, key =>
    if k = key then mdelete rest key else (k, v) :: mdelete rest key

/-- `userTokens.has(userId)`. -/
def mhas (store : MapStore) (key : String) : Bool :=
  (mget store key).isSome

/-- `GET /auth/status/:userId` (V1 lines 444-453, V2 lines 975-986): the
`authenticated` field is `userTokens.has(userId)`. -/
def authStatus (store : MapStore) (userId : String) : Bool :=
  mhas store userId

/-- The fields of the parsed LLM answer that the schedule handlers read
(`eventDetails`).  Datetime strings are represented by the instant they
denote, in milliseconds (see the header).  `none` models an absent or falsy
field; the empty JSON object `\x7b\x7d` yields `emptyDetails`. -/
structure EventDetails where
  summary : Option String
  startDateTime : Option Int
  endDateTime : Option Int
  attendees : Option (List String)
deriving DecidableEq

/-- The empty intent: what extraction yields for an empty JSON object. -/
def emptyDetails : EventDetails :=
  { summary := none, startDateTime := none, endDateTime := none, attendees := none }

/-- Provider attendee shape `\x7b email \x7d`. -/
structure Attendee where
  email : String
deriving DecidableEq

/-- A `start`/`end` block with a present `dateTime`. -/
structure EventTime where
  dateTime : Int
  timeZone : String
deriving DecidableEq

/-- A `start`/`end` block whose `dateTime` may be absent (V2's `end` has no
default and is simply `eventDetails.endDateTime`). -/
structure EventTimeOpt where
  dateTime : Option Int
  timeZone : String
deriving DecidableEq

/-- The calendar event literal of V1 (`server.js` lines 304-320). -/
structure CalendarEventV1 where
  summary : String
  description : String
  start : EventTime
  «end» : EventTime
  attendees : List Attendee
  remindersUseDefault : Bool
deriving DecidableEq

/-- V1 event materialization (`server.js` lines 304-320).  `now1` and `now2`
are the two `Date.now()` reads: the first inside the `start` default, the
second inside the `end` default; `tz` is the process's resolved zone. -/
def eventV1 (eventDetails : EventDetails) (userQuery : String)
    (now1 now2 : Int) (tz : String) : CalendarEventV1 :=
  { summary := eventDetails.summary.getD "New Meeting"
    description := "Created via AI Assistant. Original query: \"" ++ userQuery ++ "\""
    start := { dateTime := eventDetails.startDateTime.getD (now1 + 3600000), timeZone := tz }
    «end» := { dateTime := eventDetails.endDateTime.getD
                 (eventDetails.startDateTime.getD (now2 + 3600000) + 3600000)
               timeZone := tz }
    attendees := (eventDetails.attendees.getD []).map (fun email => { email := email })
    remindersUseDefault := true }

/-- The calendar event literal of P0 (`part_000` lines 227-239): default
summary `"Meeting"`, no description, both zones the literal `'UTC'`. -/
structure CalendarEventP0 where
  summary : String
  start : EventTime
  «end» : EventTime
  attendees : List Attendee
deriving DecidableEq

/-- P0 event materialization (`part_000` lines 227-239).  Same defaulting
chain as V1 (with its own two `Date.now()` reads) but the `timeZone` of both
blocks is the hardcoded literal `'UTC'`. -/
def eventP0 (eventDetails : EventDetails) (now1 now2 : Int) : CalendarEventP0 :=
  { summary := eventDetails.summary.getD "Meeting"
    start := { dateTime := eventDetails.startDateTime.getD (now1 + 3600000), timeZone := "UTC" }
    «end» := { dateTime := eventDetails.endDateTime.getD
                 (eventDetails.startDateTime.getD (now2 + 3600000) + 3600000)
               timeZone := "UTC" }
    attendees := (eventDetails.attendees.getD []).map (fun email => { email := email }) }

/-- The calendar event literal of V2 (`server.js` lines 892-910). -/
structure CalendarEventV2 where
  summary : String
  description : String
  start : EventTime
  «end» : EventTimeOpt
  attendees : List Attendee
  remindersPopupMinutes : Nat
deriving DecidableEq

/-- V2 event materialization (`server.js` lines 892-910).  Reached only after
the guard of lines 882-884 established `summary` and `startDateTime` truthy,
so those are taken destructured; `end.dateTime` has no default; both zones
are `Intl...timeZone || 'UTC'`. -/
def eventV2 (summary : String) (startDateTime : Int) (endDateTime : Option Int)
    (attendees : Option (List String)) (userQuery : String) (tz : String) : CalendarEventV2 :=
  { summary := summary
    description := "Created by AI Assistant\nOriginal request: \"" ++ userQuery ++ "\""
    start := { dateTime := startDateTime, timeZone := if tz = "" then "UTC" else tz }
    «end» := { dateTime := endDateTime, timeZone := if tz = "" then "UTC" else tz }
    attendees := (attendees.getD []).map (fun email => { email := email })
    remindersPopupMinutes := 10 }

/-- Data of a successful `calendar.events.insert` response. -/
structure InsertData where
  id : String
  htmlLink : String
deriving DecidableEq

/-- The part of an HTTP JSON response the claims are about: status code,
`success`, and the `error` / `action` / `details`-or-`message` fields.
Purely informational payload fields (links, timestamps, suggestions, the
echoed event) are not modelled. -/
structure Response where
  status : Nat
  success : Bool
  error : Option String
  action : Option String
  details : Option String
deriving DecidableEq

/-- The outbound network calls a schedule handler can make: the LLM
completion request, and the calendar insert carrying the materialized
event it submits. -/
inductive ExtCall where
  | llm
  | insertV1 (ev : CalendarEventV1)
  | insertV2 (ev : CalendarEventV2)
  | insertP0 (ev : CalendarEventP0)
deriving DecidableEq

/-- Result of running a schedule handler: the credential store afterwards,
the HTTP response, and the outbound calls performed, in order. -/
structure HandlerOut where
  store : MapStore
  resp : Response
  calls : List ExtCall
deriving DecidableEq

/-- V1 expiry signature (`server.js` line 349). -/
def expirySigV1 (msg : String) : Bool :=
  strIncludes msg "invalid_grant" || strIncludes msg "token expired"

/-- V1 insufficient-scope signature (`server.js` line 359). -/
def scopeSigV1 (msg : String) : Bool :=
  strIncludes msg "insufficient permissions"

/-- V2 expiry signature (`server.js` lines 945-947). -/
def expirySigV2 (msg : String) : Bool :=
  strIncludes msg "invalid_grant" || strIncludes msg "token expired" ||
    strIncludes msg "invalid_token"

/-- V2 insufficient-scope signature (`server.js` lines 957-958). -/
def scopeSigV2 (msg : String) : Bool :=
  strIncludes msg "insufficient permission" ||
    strIncludes msg "Calendar API has not been used"

/-- P0 expiry signature (`part_000` line 263). -/
def expirySigP0 (msg : String) : Bool :=
  strIncludes msg "invalid_grant" || strIncludes msg "token expired"

/-- V1 catch block (`server.js` lines 345-371), classifying the caught
error message `msg`. -/
def catchV1 (store : MapStore) (userId : String) (msg : String)
    (calls : List ExtCall) : HandlerOut :=
  if expirySigV1 msg then
    { store := mdelete store userId
      resp := { status := 401, success := false, error := some "Authentication expired"
                action := some "reauthenticate", details := none }
      calls := calls }
  else if scopeSigV1 msg then
    { store := store
      resp := { status := 403, success := false
                error := some "Calendar access permission required"
                action := some "Re-authenticate and grant calendar access", details := none }
      calls := calls }
  else
    { store := store
      resp := { status := 500, success := false, error := some "Failed to schedule event"
                action := none, details := some msg }
      calls := calls }

/-- V2 catch block (`server.js` lines 941-971). -/
def catchV2 (store : MapStore) (userId : String) (msg : String)
    (calls : List ExtCall) : HandlerOut :=
  if expirySigV2 msg then
    { store := mdelete store userId
      resp := { status := 401, success := false, error := some "Authentication expired"
                action := some "reauthenticate"
                details := some "Your authentication expired. Please authenticate again." }
      calls := calls }
  else if scopeSigV2 msg then
    { store := store
      resp := { status := 403, success := false, error := some "Calendar access denied"
                action := some "Enable Calendar API and re-authenticate"
                details := some "Please ensure Calendar API is enabled in Google Cloud Console" }
      calls := calls }
  else
    { store := store
      resp := { status := 500, success := false, error := some "Failed to schedule event"
                action := none, details := some msg }
      calls := calls }

/-- P0 catch block (`part_000` lines 259-275): only the expiry branch, then
a generic 500 whose `error` field is the raw message. -/
def catchP0 (store : MapStore) (userId : String) (msg : String)
    (calls : List ExtCall) : HandlerOut :=
  if expirySigP0 msg then
    { store := mdelete store userId
      resp := { status := 401, success := false, error := some "Authentication expired"
                action := some "Re-authenticate via /auth/url", details := none }
      calls := calls }
  else
    { store := store
      resp := { status := 500, success := false, error := some msg
                action := none, details := some "Failed to schedule event" }
      calls := calls }

/-- V1 `POST /schedule-event` (`server.js` lines 259-372).  `parseResult` is
the outcome `parseScheduleRequest(userQuery)` would produce (`Except.error`
models a throw), `insertResult` the outcome of `calendar.events.insert`;
`now1`, `now2`, `tz` as in `eventV1`.  The event literal (lines 304-320) is
`eventV1 eventDetails q now1 now2 tz`; building it cannot throw in the model,
and the insert is attempted right after it. -/
def scheduleEventV1 (store : MapStore) (userQuery userId : Option String)
    (parseResult : Except String EventDetails) (insertResult : Except String InsertData)
    (now1 now2 : Int) (tz : String) : HandlerOut :=
  match userQuery with
  | none =>
    { store := store
      resp := { status := 400, success := false, error := some "Missing userQuery"
                action := none, details := none }
      calls := [] }
  | some q =>
    match userId with
    | none =>
      { store := store
        resp := { status := 400, success := false, error := some "Missing userId"
                  action := some "Call /auth/url first to get authentication URL"
                  details := none }
        calls := [] }
    | some uid =>
      match mget store uid with
      | none =>
        { store := store
          resp := { status := 401, success := false, error := some "User not authenticated"
                    action := some "authenticate", details := none }
          calls := [] }
      | some _tokens =>
        match parseResult with
        | Except.error e => catchV1 store uid e [ExtCall.llm]
        | Except.ok eventDetails =>
          let ev := eventV1 eventDetails q now1 now2 tz
          match insertResult with
          | Except.error e => catchV1 store uid e [ExtCall.llm, ExtCall.insertV1 ev]
          | Except.ok _ins =>
            { store := store
              resp := { status := 200, success := true, error := none
                        action := none, details := none }
              calls := [ExtCall.llm, ExtCall.insertV1 ev] }

/-- V2 `POST /schedule-event` (`server.js` lines 839-972).  Differences from
V1: an API-key guard (lines 860-865) placed before the credential lookup, and
the extraction guard of lines 882-884 which throws
`'Could not extract event details from query'` when `summary` or
`startDateTime` is falsy, before the calendar call.  V2's event literal does
not read the clock, so no `now` arguments. -/
def scheduleEventV2 (store : MapStore) (userQuery userId : Option String)
    (apiKeySet : Bool) (parseResult : Except String EventDetails)
    (insertResult : Except String InsertData) (tz : String) : HandlerOut :=
  match userQuery with
  | none =>
    { store := store
      resp := { status := 400, success := false, error := some "Missing userQuery"
                action := none, details := none }
      calls := [] }
  | some q =>
    match userId with
    | none =>
      { store := store
        resp := { status := 400, success := false, error := some "Missing userId"
                  action := none, details := some "Authenticate first using /auth/url" }
        calls := [] }
    | some uid =>
      if apiKeySet = false then
        { store := store
          resp := { status := 500, success := false, error := some "Gemini API not configured"
                    action := none
                    details := some "Set GOOGLE_API_KEY in environment variables" }
          calls := [] }
      else
        match mget store uid with
        | none =>
          { store := store
            resp := { status := 401, success := false, error := some "User not authenticated"
                      action := some "authenticate"
                      details := some "Please authenticate with Google Calendar first" }
            calls := [] }
        | some _tokens =>
          match parseResult with
          | Except.error e => catchV2 store uid e [ExtCall.llm]
          | Except.ok eventDetails =>
            match eventDetails.summary, eventDetails.startDateTime with
            | some sm, some st =>
              let ev := eventV2 sm st eventDetails.endDateTime eventDetails.attendees q tz
              match insertResult with
              | Except.error e => catchV2 store uid e [ExtCall.llm, ExtCall.insertV2 ev]
              | Except.ok _ins =>
                { store := store
                  resp := { status := 200, success := true, error := none
                            action := none, details := none }
                  calls := [ExtCall.llm, ExtCall.insertV2 ev] }
            | _, _ =>
              catchV2 store uid "Could not extract event details from query" [ExtCall.llm]

/-- P0 `POST /schedule-event` (`part_000` lines 187-276): joint validation of
the two fields, then the same shape as V1 with P0's catch block. -/
def scheduleEventP0 (store : MapStore) (userQuery userId : Option String)
    (parseResult : Except String EventDetails) (insertResult : Except String InsertData)
    (now1 now2 : Int) : HandlerOut :=
  match userQuery, userId with
  | some _q, some uid =>
    match mget store uid with
    | none =>
      { store := store
        resp := { status := 401, success := false, error := some "User not authenticated"
                  action := some "Call /auth/url first to get authentication URL"
                  details := none }
        calls := [] }
    | some _tokens =>
      match parseResult with
      | Except.error e => catchP0 store uid e [ExtCall.llm]
      | Except.ok eventDetails =>
        let ev := eventP0 eventDetails now1 now2
        match insertResult with
        | Except.error e => catchP0 store uid e [ExtCall.llm, ExtCall.insertP0 ev]
        | Except.ok _ins =>
          { store := store
            resp := { status := 200, success := true, error := none
                      action := none, details := none }
            calls := [ExtCall.llm, ExtCall.insertP0 ev] }
  | _, _ =>
    { store := store
      resp := { status := 400, success := false
                error := some "Missing required fields: userQuery and userId"
                action := none, details := none }
      calls := [] }

/-- OAuth client configuration, from the environment.  `none` models an
unset (or empty, hence falsy) variable. -/
structure OAuthConfig where
  clientIdEnv : Option String
  clientSecret : Option String
deriving DecidableEq

/-- The hardcoded fallback client id of V1 (`server.js` line 22). -/
def defaultClientIdV1 : String :=
  "431860449641-u3jcgvq16lc0r1tqgkpbv6s0m8tb7c5a.apps.googleusercontent.com"

/-- Models the `googleapis` call `oAuth2Client.generateAuthUrl(...)`: a
deterministic consent URL embedding the client id, the calendar scope,
offline access with forced consent, and `state = userId`.  The library
builds the URL unconditionally; it does not validate the credentials. -/
def generateAuthUrl (clientId userId : String) : String :=
  "https://accounts.google.com/o/oauth2/v2/auth?client_id=" ++ clientId ++
    "&scope=https://www.googleapis.com/auth/calendar" ++
    "&access_type=offline&prompt=consent&state=" ++ userId

/-- Response of `POST /auth/url`. -/
structure AuthUrlResp where
  status : Nat
  authUrl : Option String
  error : Option String
deriving DecidableEq

/-- V1 `POST /auth/url` (`server.js` lines 53-88): no credential check; the
client id falls back to the hardcoded default when the variable is unset. -/
def authUrlV1 (cfg : OAuthConfig) (userId : Option String) : AuthUrlResp :=
  match userId with
  | none => { status := 400, authUrl := none, error := some "User ID required" }
  | some uid =>
    { status := 200
      authUrl := some (generateAuthUrl (cfg.clientIdEnv.getD defaultClientIdV1) uid)
      error := none }

/-- V2 `POST /auth/url` (`server.js` lines 632-676): explicit credential
check at lines 643-648 returning 500 before any URL is generated. -/
def authUrlV2 (cfg : OAuthConfig) (userId : Option String) : AuthUrlResp :=
  match userId with
  | none => { status := 400, authUrl := none, error := some "Missing userId" }
  | some uid =>
    if cfg.clientIdEnv.isNone || cfg.clientSecret.isNone then
      { status := 500, authUrl := none, error := some "OAuth not configured" }
    else
      { status := 200
        authUrl := some (generateAuthUrl (cfg.clientIdEnv.getD "") uid)
        error := none }

/-- Looking up a key after deleting it yields nothing. -/
theorem mget_mdelete_self (store : MapStore) (key : String) :
    mget (mdelete store key) key = none := by
  induction store with
  | nil => rfl
  | cons hd tl ih =>
    obtain ⟨k, v⟩ := hd
    by_cases h : k = key
    · simpa [mdelete, h] using ih
    · simpa [mdelete, mget, h] using ih

/-- Deleting one key leaves every other key's entry unchanged. -/
theorem mget_mdelete_ne (store : MapStore) (key other : String) (h : other ≠ key) :
    mget (mdelete store key) other = mget store other := by
  induction store with
  | nil => rfl
  | cons hd tl ih =>
    obtain ⟨k, v⟩ := hd
    by_cases hk : k = key
    · subst hk
      have hko : k ≠ other := fun he => h he.symm
      simp [mdelete, mget, hko, ih]
    · by_cases ho : k = other
      · subst ho
        simp [mdelete, mget, hk, h, ih]
      · simp [mdelete, mget, hk, ho, ih]

/-- V1 catch block on a message matching the expiry signature. -/
theorem catchV1_expiry (s : MapStore) (u m : String) (c : List ExtCall)
    (h : expirySigV1 m = true) :
    catchV1 s u m c =
      { store := mdelete s u
        resp := { status := 401, success := false, error := some "Authentication expired"
                  action := some "reauthenticate", details := none }
        calls := c } := by
  simp [catchV1, h]

/-- V1 catch block on a scope-signature message that is not an expiry one. -/
theorem catchV1_scope (s : MapStore) (u m : String) (c : List ExtCall)
    (he : expirySigV1 m = false) (hs : scopeSigV1 m = true) :
    catchV1 s u m c =
      { store := s
        resp := { status := 403, success := false
                  error := some "Calendar access permission required"
                  action := some "Re-authenticate and grant calendar access", details := none }
        calls := c } := by
  simp [catchV1, he, hs]

/-- V1 catch block on a message matching neither signature. -/
theorem catchV1_other (s : MapStore) (u m : String) (c : List ExtCall)
    (he : expirySigV1 m = false) (hs : scopeSigV1 m = false) :
    catchV1 s u m c =
      { store := s
        resp := { status := 500, success := false, error := some "Failed to schedule event"
                  action := none, details := some m }
        calls := c } := by
  simp [catchV1, he, hs]

/-- V2 catch block on a message matching the expiry signature. -/
theorem catchV2_expiry (s : MapStore) (u m : String) (c : List ExtCall)
    (h : expirySigV2 m = true) :
    catchV2 s u m c =
      { store := mdelete s u
        resp := { status := 401, success := false, error := some "Authentication expired"
                  action := some "reauthenticate"
                  details := some "Your authentication expired. Please authenticate again." }
        calls := c } := by
  simp [catchV2, h]

/-- V2 catch block on a scope-signature message that is not an expiry one. -/
theorem catchV2_scope (s : MapStore) (u m : String) (c : List ExtCall)
    (he : expirySigV2 m = false) (hs : scopeSigV2 m = true) :
    catchV2 s u m c =
      { store := s
        resp := { status := 403, success := false, error := some "Calendar access denied"
                  action := some "Enable Calendar API and re-authenticate"
                  details := some "Please ensure Calendar API is enabled in Google Cloud Console" }
        calls := c } := by
  simp [catchV2, he, hs]

/-- V2 catch block on a message matching neither signature. -/
theorem catchV2_other (s : MapStore) (u m : String) (c : List ExtCall)
    (he : expirySigV2 m = false) (hs : scopeSigV2 m = false) :
    catchV2 s u m c =
      { store := s
        resp := { status := 500, success := false, error := some "Failed to schedule event"
                  action := none, details := some m }
        calls := c } := by
  simp [catchV2, he, hs]

/-- P0 catch block on a message matching the expiry signature. -/
theorem catchP0_expiry (s : MapStore) (u m : String) (c : List ExtCall)
    (h : expirySigP0 m = true) :
    catchP0 s u m c =
      { store := mdelete s u
        resp := { status := 401, success := false, error := some "Authentication expired"
                  action := some "Re-authenticate via /auth/url", details := none }
        calls := c } := by
  simp [catchP0, h]

/-- P0 catch block on any other message. -/
theorem catchP0_other (s : MapStore) (u m : String) (c : List ExtCall)
    (h : expirySigP0 m = false) :
    catchP0 s u m c =
      { store := s
        resp := { status := 500, success := false, error := some m
                  action := none, details := some "Failed to schedule event" }
        calls := c } := by
  simp [catchP0, h]

/-- Any catch block of V1 leaves other users' entries unchanged. -/
theorem catchV1_frame (s : MapStore) (u m : String) (c : List ExtCall) (other : String)
    (h : other ≠ u) :
    mget (catchV1 s u m c).store other = mget s other := by
  unfold catchV1
  split
  · simp [mget_mdelete_ne s u other h]
  · split <;> simp

/-- Any catch block of V2 leaves other users' entries unchanged. -/
theorem catchV2_frame (s : MapStore) (u m : String) (c : List ExtCall) (other : String)
    (h : other ≠ u) :
    mget (catchV2 s u m c).store other = mget s other := by
  unfold catchV2
  split
  · simp [mget_mdelete_ne s u other h]
  · split <;> simp

/-- Any catch block of P0 leaves other users' entries unchanged. -/
theorem catchP0_frame (s : MapStore) (u m : String) (c : List ExtCall) (other : String)
    (h : other ≠ u) :
    mget (catchP0 s u m c).store other = mget s other := by
  unfold catchP0
  split
  · simp [mget_mdelete_ne s u other h]
  · simp

/-- C7: credential deletion is idempotent: for every userId and every store
state, deleting the credential twice leaves the store in the same state as
deleting it once; the second deletion (a second expiry for the same user) is
a total no-op, not an error — `mdelete` is a total function. -/
theorem c7_delete_idempotent (store : MapStore) (userId : String) :
    mdelete (mdelete store userId) userId = mdelete store userId := by
  induction store with
  | nil => rfl
  | cons hd tl ih =>
    obtain ⟨k, v⟩ := hd
    by_cases h : k = userId
    · simpa [mdelete, h] using ih
    · simpa [mdelete, h] using ih

/-- C10: for every `/schedule-event` request carrying a userId and every
outcome of its network calls, the credential-store entries of all users
other than the request's own userId are unchanged, in all three handler
revisions. -/
theorem c10_other_users_unchanged (store : MapStore) (q : Option String)
    (uid other : String) (apiKeySet : Bool)
    (pr : Except String EventDetails) (ir : Except String InsertData)
    (now1 now2 : Int) (tz : String) (h : other ≠ uid) :
    mget (scheduleEventV1 store q (some uid) pr ir now1 now2 tz).store other
      = mget store other ∧
    mget (scheduleEventV2 store q (some uid) apiKeySet pr ir tz).store other
      = mget store other ∧
    mget (scheduleEventP0 store q (some uid) pr ir now1 now2).store other
      = mget store other := by
  refine ⟨?_, ?_, ?_⟩
  · cases q with
    | none => rfl
    | some q =>
      cases hg : mget store uid with
      | none => simp [scheduleEventV1, hg]
      | some tok =>
        simp only [scheduleEventV1, hg]
        cases pr with
        | error e => exact catchV1_frame _ _ _ _ _ h
        | ok d =>
          cases ir with
          | error e => exact catchV1_frame _ _ _ _ _ h
          | ok ins => rfl
  · cases q with
    | none => rfl
    | some q =>
      cases apiKeySet with
      | false => rfl
      | true =>
        cases hg : mget store uid with
        | none => simp [scheduleEventV2, hg]
        | some tok =>
          simp only [scheduleEventV2, hg]
          cases pr with
          | error e => exact catchV2_frame _ _ _ _ _ h
          | ok d =>
            obtain ⟨ds, dst, de, da⟩ := d
            cases ds <;> cases dst <;> cases ir <;>
              first
                | rfl
                | exact catchV2_frame _ _ _ _ _ h
  · cases q with
    | none => rfl
    | some q =>
      cases hg : mget store uid with
      | none => simp [scheduleEventP0, hg]
      | some tok =>
        simp only [scheduleEventP0, hg]
        cases pr with
        | error e => exact catchP0_frame _ _ _ _ _ h
        | ok d =>
          cases ir with
          | error e => exact catchP0_frame _ _ _ _ _ h
          | ok ins => rfl

/-- Witness for C10 at a concrete two-user store: an expiring calendar call
for `"u1"` deletes `"u1"` but leaves `"u2"` untouched. -/
theorem c10_other_users_unchanged_witness :
    mget (scheduleEventV1 [("u1", ⟨"a", "r"⟩), ("u2", ⟨"b", "s"⟩)] (some "sync")
        (some "u1") (Except.ok emptyDetails) (Except.error "invalid_grant") 0 0 "UTC").store
      "u2" = mget [("u1", ⟨"a", "r"⟩), ("u2", ⟨"b", "s"⟩)] "u2" :=
  (c10_other_users_unchanged [("u1", ⟨"a", "r"⟩), ("u2", ⟨"b", "s"⟩)] (some "sync")
    "u1" "u2" true (Except.ok emptyDetails) (Except.error "invalid_grant") 0 0 "UTC"
    (by decide)).1

/-- The store after V1's catch block: deleted exactly when the message
matches the expiry signature. -/
theorem catchV1_store (s : MapStore) (u m : String) (c : List ExtCall) :
    (catchV1 s u m c).store = if expirySigV1 m = true then mdelete s u else s := by
  by_cases h : expirySigV1 m = true
  · simp [catchV1, h]
  · by_cases hs : scopeSigV1 m = true
    · simp [catchV1, h, hs]
    · simp [catchV1, h, hs]

/-- The store after V2's catch block: deleted exactly when the message
matches the expiry signature. -/
theorem catchV2_store (s : MapStore) (u m : String) (c : List ExtCall) :
    (catchV2 s u m c).store = if expirySigV2 m = true then mdelete s u else s := by
  by_cases h : expirySigV2 m = true
  · simp [catchV2, h]
  · by_cases hs : scopeSigV2 m = true
    · simp [catchV2, h, hs]
    · simp [catchV2, h, hs]

/-- The store after P0's catch block: deleted exactly when the message
matches the expiry signature. -/
theorem catchP0_store (s : MapStore) (u m : String) (c : List ExtCall) :
    (catchP0 s u m c).store = if expirySigP0 m = true then mdelete s u else s := by
  by_cases h : expirySigP0 m = true
  · simp [catchP0, h]
  · simp [catchP0, h]

/-- C4: a `/schedule-event` request whose calendar call fails with a message
matching the handler's own expiry/invalid-grant signature (`msg2` against
V2's three-disjunct signature, `msg1` against V1's) deletes that userId's
credential and answers 401 with action `"reauthenticate"`; `GET /auth/status`
for the same userId then reports `authenticated = false`; and this catch
branch is the only path of the schedule handler that mutates the credential
store: any mutation is the deletion of the requesting user's entry, possible
only when a network call failed with an expiry-signature message. -/
theorem c4_auth_expired_deletes_credential
    (store : MapStore) (q uid sm msg1 msg2 : String) (tok : Tokens)
    (d : EventDetails) (st : Int) (now1 now2 : Int) (tz : String)
    (hget : mget store uid = some tok)
    (hsm : d.summary = some sm) (hst : d.startDateTime = some st)
    (hsig2 : expirySigV2 msg2 = true) (hsig1 : expirySigV1 msg1 = true) :
    ((scheduleEventV2 store (some q) (some uid) true (Except.ok d) (Except.error msg2) tz).store
        = mdelete store uid ∧
     (scheduleEventV2 store (some q) (some uid) true (Except.ok d) (Except.error msg2) tz).resp.status
        = 401 ∧
     (scheduleEventV2 store (some q) (some uid) true (Except.ok d) (Except.error msg2) tz).resp.action
        = some "reauthenticate" ∧
     authStatus (scheduleEventV2 store (some q) (some uid) true (Except.ok d)
        (Except.error msg2) tz).store uid = false) ∧
    ((scheduleEventV1 store (some q) (some uid) (Except.ok d) (Except.error msg1) now1 now2 tz).store
        = mdelete store uid ∧
     (scheduleEventV1 store (some q) (some uid) (Except.ok d) (Except.error msg1) now1 now2 tz).resp.status
        = 401 ∧
     (scheduleEventV1 store (some q) (some uid) (Except.ok d) (Except.error msg1) now1 now2 tz).resp.action
        = some "reauthenticate" ∧
     authStatus (scheduleEventV1 store (some q) (some uid) (Except.ok d)
        (Except.error msg1) now1 now2 tz).store uid = false) ∧
    (∀ (store₀ : MapStore) (uq uidOpt : Option String) (ak : Bool)
        (pr : Except String EventDetails) (ir : Except String InsertData) (tz₀ : String),
        (scheduleEventV2 store₀ uq uidOpt ak pr ir tz₀).store = store₀ ∨
        ∃ u e, uidOpt = some u ∧
          (scheduleEventV2 store₀ uq uidOpt ak pr ir tz₀).store = mdelete store₀ u ∧
          (pr = Except.error e ∨ ir = Except.error e) ∧ expirySigV2 e = true) ∧
    (∀ (store₀ : MapStore) (uq uidOpt : Option String)
        (pr : Except String EventDetails) (ir : Except String InsertData)
        (n1 n2 : Int) (tz₀ : String),
        (scheduleEventV1 store₀ uq uidOpt pr ir n1 n2 tz₀).store = store₀ ∨
        ∃ u e, uidOpt = some u ∧
          (scheduleEventV1 store₀ uq uidOpt pr ir n1 n2 tz₀).store = mdelete store₀ u ∧
          (pr = Except.error e ∨ ir = Except.error e) ∧ expirySigV1 e = true) := by
  refine ⟨?_, ?_, ?_, ?_⟩
  · have hred : scheduleEventV2 store (some q) (some uid) true (Except.ok d)
        (Except.error msg2) tz
        = catchV2 store uid msg2
            [ExtCall.llm, ExtCall.insertV2 (eventV2 sm st d.endDateTime d.attendees q tz)] := by
      simp only [scheduleEventV2, hget, hsm, hst]
      rfl
    rw [hred, catchV2_expiry _ _ _ _ hsig2]
    exact ⟨rfl, rfl, rfl, by simp [authStatus, mhas, mget_mdelete_self]⟩
  · have hred : scheduleEventV1 store (some q) (some uid) (Except.ok d)
        (Except.error msg1) now1 now2 tz
        = catchV1 store uid msg1 [ExtCall.llm, ExtCall.insertV1 (eventV1 d q now1 now2 tz)] := by
      simp only [scheduleEventV1, hget]
    rw [hred, catchV1_expiry _ _ _ _ hsig1]
    exact ⟨rfl, rfl, rfl, by simp [authStatus, mhas, mget_mdelete_self]⟩
  · intro store₀ uq uidOpt ak pr ir tz₀
    cases uq with
    | none => exact Or.inl rfl
    | some q₀ =>
      cases uidOpt with
      | none => exact Or.inl rfl
      | some u₀ =>
        cases ak with
        | false => exact Or.inl rfl
        | true =>
          cases hg : mget store₀ u₀ with
          | none => simp [scheduleEventV2, hg]
          | some tok₀ =>
            simp only [scheduleEventV2, hg]
            cases pr with
            | error e =>
              cases he : expirySigV2 e with
              | true =>
                refine Or.inr ⟨u₀, e, rfl, ?_, Or.inl rfl, he⟩
                have h1 : (catchV2 store₀ u₀ e [ExtCall.llm]).store = mdelete store₀ u₀ := by
                  rw [catchV2_store]; simp [he]
                exact h1
              | false =>
                refine Or.inl ?_
                have h1 : (catchV2 store₀ u₀ e [ExtCall.llm]).store = store₀ := by
                  rw [catchV2_store]; simp [he]
                exact h1
            | ok d₀ =>
              obtain ⟨ds, dst, de, da⟩ := d₀
              have hguard : expirySigV2 "Could not extract event details from query" = false := by
                decide
              cases ds with
              | none =>
                refine Or.inl ?_
                have h1 : (catchV2 store₀ u₀ "Could not extract event details from query"
                    [ExtCall.llm]).store = store₀ := by
                  rw [catchV2_store]; simp [hguard]
                cases dst <;> exact h1
              | some sm₀ =>
                cases dst with
                | none =>
                  refine Or.inl ?_
                  have h1 : (catchV2 store₀ u₀ "Could not extract event details from query"
                      [ExtCall.llm]).store = store₀ := by
                    rw [catchV2_store]; simp [hguard]
                  exact h1
                | some st₀ =>
                  cases ir with
                  | error e =>
                    cases he : expirySigV2 e with
                    | true =>
                      refine Or.inr ⟨u₀, e, rfl, ?_, Or.inr rfl, he⟩
                      have h1 : (catchV2 store₀ u₀ e [ExtCall.llm,
                          ExtCall.insertV2 (eventV2 sm₀ st₀ de da q₀ tz₀)]).store
                          = mdelete store₀ u₀ := by
                        rw [catchV2_store]; simp [he]
                      exact h1
                    | false =>
                      refine Or.inl ?_
                      have h1 : (catchV2 store₀ u₀ e [ExtCall.llm,
                          ExtCall.insertV2 (eventV2 sm₀ st₀ de da q₀ tz₀)]).store = store₀ := by
                        rw [catchV2_store]; simp [he]
                      exact h1
                  | ok ins => exact Or.inl rfl
  · intro store₀ uq uidOpt pr ir n1 n2 tz₀
    cases uq with
    | none => exact Or.inl rfl
    | some q₀ =>
      cases uidOpt with
      | none => exact Or.inl rfl
      | some u₀ =>
        cases hg : mget store₀ u₀ with
        | none => simp [scheduleEventV1, hg]
        | some tok₀ =>
          simp only [scheduleEventV1, hg]
          cases pr with
          | error e =>
            cases he : expirySigV1 e with
            | true =>
              refine Or.inr ⟨u₀, e, rfl, ?_, Or.inl rfl, he⟩
              have h1 : (catchV1 store₀ u₀ e [ExtCall.llm]).store = mdelete store₀ u₀ := by
                rw [catchV1_store]; simp [he]
              exact h1
            | false =>
              refine Or.inl ?_
              have h1 : (catchV1 store₀ u₀ e [ExtCall.llm]).store = store₀ := by
                rw [catchV1_store]; simp [he]
              exact h1
          | ok d₀ =>
            cases ir with
            | error e =>
              cases he : expirySigV1 e with
              | true =>
                refine Or.inr ⟨u₀, e, rfl, ?_, Or.inr rfl, he⟩
                have h1 : (catchV1 store₀ u₀ e [ExtCall.llm,
                    ExtCall.insertV1 (eventV1 d₀ q₀ n1 n2 tz₀)]).store = mdelete store₀ u₀ := by
                  rw [catchV1_store]; simp [he]
                exact h1
              | false =>
                refine Or.inl ?_
                have h1 : (catchV1 store₀ u₀ e [ExtCall.llm,
                    ExtCall.insertV1 (eventV1 d₀ q₀ n1 n2 tz₀)]).store = store₀ := by
                  rw [catchV1_store]; simp [he]
                exact h1
            | ok ins => exact Or.inl rfl

/-- Witness for C4: a concrete calendar call for `"u1"` failing with an
`invalid_token` message (V2's third signature disjunct) deletes the
credential, answers 401/reauthenticate, and auth-status turns false. -/
theorem c4_auth_expired_deletes_credential_witness :
    (scheduleEventV2 [("u1", ⟨"a", "r"⟩)] (some "team sync at 3") (some "u1") true
        (Except.ok ⟨some "Meeting", some 100, none, none⟩)
        (Except.error "invalid_token: the token is malformed") "UTC").store
      = mdelete [("u1", ⟨"a", "r"⟩)] "u1" ∧
    (scheduleEventV2 [("u1", ⟨"a", "r"⟩)] (some "team sync at 3") (some "u1") true
        (Except.ok ⟨some "Meeting", some 100, none, none⟩)
        (Except.error "invalid_token: the token is malformed") "UTC").resp.status
      = 401 ∧
    (scheduleEventV2 [("u1", ⟨"a", "r"⟩)] (some "team sync at 3") (some "u1") true
        (Except.ok ⟨some "Meeting", some 100, none, none⟩)
        (Except.error "invalid_token: the token is malformed") "UTC").resp.action
      = some "reauthenticate" ∧
    authStatus (scheduleEventV2 [("u1", ⟨"a", "r"⟩)] (some "team sync at 3") (some "u1") true
        (Except.ok ⟨some "Meeting", some 100, none, none⟩)
        (Except.error "invalid_token: the token is malformed") "UTC").store "u1"
      = false :=
  (c4_auth_expired_deletes_credential [("u1", ⟨"a", "r"⟩)] "team sync at 3" "u1" "Meeting"
    "token expired during insert" "invalid_token: the token is malformed" ⟨"a", "r"⟩
    ⟨some "Meeting", some 100, none, none⟩ 100 0 0 "UTC"
    rfl rfl rfl (by decide) (by decide)).1

/-- The V1 catch block answers with the calls that were already performed. -/
theorem catchV1_calls (s : MapStore) (u m : String) (c : List ExtCall) :
    (catchV1 s u m c).calls = c := by
  unfold catchV1
  split
  · rfl
  · split <;> rfl

/-- The P0 catch block answers with the calls that were already performed. -/
theorem catchP0_calls (s : MapStore) (u m : String) (c : List ExtCall) :
    (catchP0 s u m c).calls = c := by
  unfold catchP0
  split <;> rfl

/-- Every branch of the V1 catch block is an error response. -/
theorem catchV1_success (s : MapStore) (u m : String) (c : List ExtCall) :
    (catchV1 s u m c).resp.success = false := by
  unfold catchV1
  split
  · rfl
  · split <;> rfl

/-- C5 (amended): a `/schedule-event` request with a userQuery and a userId
that has no credential entry answers 401 with action `"authenticate"`,
performs no LLM or calendar call, and leaves the store unchanged — for V1
unconditionally, and for V2 provided the Gemini API key is configured (V2
checks the key before the credential lookup and answers 500 otherwise). -/
theorem c5_unknown_user_unauthenticated (store : MapStore) (q uid : String)
    (pr : Except String EventDetails) (ir : Except String InsertData)
    (now1 now2 : Int) (tz : String) (hget : mget store uid = none) :
    ((scheduleEventV1 store (some q) (some uid) pr ir now1 now2 tz).resp.status = 401 ∧
     (scheduleEventV1 store (some q) (some uid) pr ir now1 now2 tz).resp.action
        = some "authenticate" ∧
     (scheduleEventV1 store (some q) (some uid) pr ir now1 now2 tz).calls = [] ∧
     (scheduleEventV1 store (some q) (some uid) pr ir now1 now2 tz).store = store) ∧
    ((scheduleEventV2 store (some q) (some uid) true pr ir tz).resp.status = 401 ∧
     (scheduleEventV2 store (some q) (some uid) true pr ir tz).resp.action
        = some "authenticate" ∧
     (scheduleEventV2 store (some q) (some uid) true pr ir tz).calls = [] ∧
     (scheduleEventV2 store (some q) (some uid) true pr ir tz).store = store) := by
  have h1 : scheduleEventV1 store (some q) (some uid) pr ir now1 now2 tz
      = { store := store
          resp := { status := 401, success := false, error := some "User not authenticated"
                    action := some "authenticate", details := none }
          calls := [] } := by
    simp only [scheduleEventV1, hget]
  have h2 : scheduleEventV2 store (some q) (some uid) true pr ir tz
      = { store := store
          resp := { status := 401, success := false, error := some "User not authenticated"
                    action := some "authenticate"
                    details := some "Please authenticate with Google Calendar first" }
          calls := [] } := by
    simp only [scheduleEventV2, hget]
    rfl
  rw [h1, h2]
  exact ⟨⟨rfl, rfl, rfl, rfl⟩, ⟨rfl, rfl, rfl, rfl⟩⟩

/-- Witness for C5 at the empty store: user `"u9"` is unknown, the response
is 401/authenticate and no outbound call happens. -/
theorem c5_unknown_user_unauthenticated_witness :
    ((scheduleEventV1 [] (some "book a room tomorrow") (some "u9") (Except.ok emptyDetails)
        (Except.ok ⟨"e1", "L"⟩) 0 0 "UTC").resp.status = 401 ∧
     (scheduleEventV1 [] (some "book a room tomorrow") (some "u9") (Except.ok emptyDetails)
        (Except.ok ⟨"e1", "L"⟩) 0 0 "UTC").resp.action = some "authenticate" ∧
     (scheduleEventV1 [] (some "book a room tomorrow") (some "u9") (Except.ok emptyDetails)
        (Except.ok ⟨"e1", "L"⟩) 0 0 "UTC").calls = [] ∧
     (scheduleEventV1 [] (some "book a room tomorrow") (some "u9") (Except.ok emptyDetails)
        (Except.ok ⟨"e1", "L"⟩) 0 0 "UTC").store = []) ∧
    ((scheduleEventV2 [] (some "book a room tomorrow") (some "u9") true (Except.ok emptyDetails)
        (Except.ok ⟨"e1", "L"⟩) "UTC").resp.status = 401 ∧
     (scheduleEventV2 [] (some "book a room tomorrow") (some "u9") true (Except.ok emptyDetails)
        (Except.ok ⟨"e1", "L"⟩) "UTC").resp.action = some "authenticate" ∧
     (scheduleEventV2 [] (some "book a room tomorrow") (some "u9") true (Except.ok emptyDetails)
        (Except.ok ⟨"e1", "L"⟩) "UTC").calls = [] ∧
     (scheduleEventV2 [] (some "book a room tomorrow") (some "u9") true (Except.ok emptyDetails)
        (Except.ok ⟨"e1", "L"⟩) "UTC").store = []) :=
  c5_unknown_user_unauthenticated [] "book a room tomorrow" "u9" (Except.ok emptyDetails)
    (Except.ok ⟨"e1", "L"⟩) 0 0 "UTC" rfl

/-- Counterexample for C5 as stated: in V2, with the Gemini API key unset,
a request with a non-empty userQuery and an unknown userId answers 500
(`'Gemini API not configured'`), not 401 with action `"authenticate"` —
the key guard sits before the credential lookup. -/
theorem c5_unknown_user_unauthenticated_cex :
    (scheduleEventV2 [] (some "book a room tomorrow") (some "u9") false
        (Except.ok emptyDetails) (Except.ok ⟨"e1", "L"⟩) "UTC").resp.status = 500 ∧
    (scheduleEventV2 [] (some "book a room tomorrow") (some "u9") false
        (Except.ok emptyDetails) (Except.ok ⟨"e1", "L"⟩) "UTC").resp.action
      ≠ some "authenticate" := by
  exact ⟨rfl, by decide⟩

/-- C6 (amended): a calendar failure matching the insufficient-scope
signature (and not the expiry signature) answers 403 with an actionable
grant-access message and leaves the credential untouched in V1 and V2;
P0 has no scope branch and answers a generic 500, also leaving the
credential untouched. -/
theorem c6_scope_denied (store : MapStore) (q uid : String) (tok : Tokens)
    (d : EventDetails) (sm : String) (st : Int)
    (msg1 msg2 msg3 : String) (now1 now2 : Int) (tz : String)
    (hget : mget store uid = some tok)
    (hsm : d.summary = some sm) (hst : d.startDateTime = some st)
    (h1e : expirySigV1 msg1 = false) (h1s : scopeSigV1 msg1 = true)
    (h2e : expirySigV2 msg2 = false) (h2s : scopeSigV2 msg2 = true)
    (h3e : expirySigP0 msg3 = false) :
    ((scheduleEventV1 store (some q) (some uid) (Except.ok d) (Except.error msg1)
        now1 now2 tz).resp.status = 403 ∧
     (scheduleEventV1 store (some q) (some uid) (Except.ok d) (Except.error msg1)
        now1 now2 tz).resp.action = some "Re-authenticate and grant calendar access" ∧
     (scheduleEventV1 store (some q) (some uid) (Except.ok d) (Except.error msg1)
        now1 now2 tz).store = store) ∧
    ((scheduleEventV2 store (some q) (some uid) true (Except.ok d)
        (Except.error msg2) tz).resp.status = 403 ∧
     (scheduleEventV2 store (some q) (some uid) true (Except.ok d)
        (Except.error msg2) tz).resp.action = some "Enable Calendar API and re-authenticate" ∧
     (scheduleEventV2 store (some q) (some uid) true (Except.ok d)
        (Except.error msg2) tz).store = store) ∧
    ((scheduleEventP0 store (some q) (some uid) (Except.ok d) (Except.error msg3)
        now1 now2).resp.status = 500 ∧
     (scheduleEventP0 store (some q) (some uid) (Except.ok d) (Except.error msg3)
        now1 now2).store = store) := by
  refine ⟨?_, ?_, ?_⟩
  · have hred : scheduleEventV1 store (some q) (some uid) (Except.ok d)
        (Except.error msg1) now1 now2 tz
        = catchV1 store uid msg1 [ExtCall.llm, ExtCall.insertV1 (eventV1 d q now1 now2 tz)] := by
      simp only [scheduleEventV1, hget]
    rw [hred, catchV1_scope _ _ _ _ h1e h1s]
    exact ⟨rfl, rfl, rfl⟩
  · have hred : scheduleEventV2 store (some q) (some uid) true (Except.ok d)
        (Except.error msg2) tz
        = catchV2 store uid msg2
            [ExtCall.llm, ExtCall.insertV2 (eventV2 sm st d.endDateTime d.attendees q tz)] := by
      simp only [scheduleEventV2, hget, hsm, hst]
      rfl
    rw [hred, catchV2_scope _ _ _ _ h2e h2s]
    exact ⟨rfl, rfl, rfl⟩
  · have hred : scheduleEventP0 store (some q) (some uid) (Except.ok d)
        (Except.error msg3) now1 now2
        = catchP0 store uid msg3 [ExtCall.llm, ExtCall.insertP0 (eventP0 d now1 now2)] := by
      simp only [scheduleEventP0, hget]
    rw [hred, catchP0_other _ _ _ _ h3e]
    exact ⟨rfl, rfl⟩

/-- Witness for C6 at a concrete scope-failure message. -/
theorem c6_scope_denied_witness :
    (scheduleEventV1 [("u1", ⟨"a", "r"⟩)] (some "sync") (some "u1")
        (Except.ok ⟨some "Meeting", some 100, none, none⟩)
        (Except.error "Request had insufficient permissions") 0 0 "UTC").resp.status = 403 ∧
    (scheduleEventV1 [("u1", ⟨"a", "r"⟩)] (some "sync") (some "u1")
        (Except.ok ⟨some "Meeting", some 100, none, none⟩)
        (Except.error "Request had insufficient permissions") 0 0 "UTC").resp.action
      = some "Re-authenticate and grant calendar access" ∧
    (scheduleEventV1 [("u1", ⟨"a", "r"⟩)] (some "sync") (some "u1")
        (Except.ok ⟨some "Meeting", some 100, none, none⟩)
        (Except.error "Request had insufficient permissions") 0 0 "UTC").store
      = [("u1", ⟨"a", "r"⟩)] :=
  (c6_scope_denied [("u1", ⟨"a", "r"⟩)] "sync" "u1" ⟨"a", "r"⟩
    ⟨some "Meeting", some 100, none, none⟩ "Meeting" 100
    "Request had insufficient permissions" "Request had insufficient permissions"
    "Request had insufficient permissions" 0 0 "UTC"
    rfl rfl rfl (by decide) (by decide) (by decide) (by decide) (by decide)).1

/-- Counterexample for C6 as stated: P0 has no insufficient-scope branch, so
a calendar failure with a scope-signature message answers 500, not 403 (the
credential does remain). -/
theorem c6_scope_denied_cex :
    (scheduleEventP0 [("u1", ⟨"a", "r"⟩)] (some "sync") (some "u1")
        (Except.ok emptyDetails)
        (Except.error "Request had insufficient permissions") 0 0).resp.status = 500 ∧
    (scheduleEventP0 [("u1", ⟨"a", "r"⟩)] (some "sync") (some "u1")
        (Except.ok emptyDetails)
        (Except.error "Request had insufficient permissions") 0 0).resp.status ≠ 403 ∧
    (scheduleEventP0 [("u1", ⟨"a", "r"⟩)] (some "sync") (some "u1")
        (Except.ok emptyDetails)
        (Except.error "Request had insufficient permissions") 0 0).store
      = [("u1", ⟨"a", "r"⟩)] := by
  refine ⟨by decide, by decide, by decide⟩

/-- C3 (amended): for an intent with absent startDateTime and endDateTime,
V1 and P0 materialize `start = now1 + 1h` and `end = now2 + 2h`, where
`now1` and `now2` are the values of the two separate `Date.now()` reads in
the event literal; when the second read returns the same instant as the
first, `end - start = 1h` exactly. -/
theorem c3_defaulted_times (d : EventDetails) (q : String) (now1 now2 : Int) (tz : String)
    (hs : d.startDateTime = none) (he : d.endDateTime = none) :
    (eventV1 d q now1 now2 tz).start.dateTime = now1 + 3600000 ∧
    (eventV1 d q now1 now2 tz).«end».dateTime = now2 + 3600000 + 3600000 ∧
    (eventP0 d now1 now2).start.dateTime = now1 + 3600000 ∧
    (eventP0 d now1 now2).«end».dateTime = now2 + 3600000 + 3600000 ∧
    (now2 = now1 →
      (eventV1 d q now1 now2 tz).«end».dateTime - (eventV1 d q now1 now2 tz).start.dateTime
        = 3600000) := by
  refine ⟨?_, ?_, ?_, ?_, ?_⟩
  · simp [eventV1, hs]
  · simp [eventV1, hs, he]
  · simp [eventP0, hs]
  · simp [eventP0, hs, he]
  · intro hnn
    simp only [eventV1, hs, he, hnn, Option.getD_none]
    omega

/-- Witness for C3 with both clock reads at the same instant. -/
theorem c3_defaulted_times_witness :
    (eventV1 emptyDetails "lunch" 5 5 "UTC").start.dateTime = 5 + 3600000 ∧
    (eventV1 emptyDetails "lunch" 5 5 "UTC").«end».dateTime = 5 + 3600000 + 3600000 ∧
    (eventP0 emptyDetails 5 5).start.dateTime = 5 + 3600000 ∧
    (eventP0 emptyDetails 5 5).«end».dateTime = 5 + 3600000 + 3600000 ∧
    ((5 : Int) = 5 →
      (eventV1 emptyDetails "lunch" 5 5 "UTC").«end».dateTime -
        (eventV1 emptyDetails "lunch" 5 5 "UTC").start.dateTime = 3600000) :=
  c3_defaulted_times emptyDetails "lunch" 5 5 "UTC" rfl rfl

/-- Counterexample for C3 as stated: the code reads `Date.now()` twice; if
the clock advances 5 ms between the `start` default and the `end` default,
the materialized event has `end - start = 1h + 5ms`, not exactly one hour. -/
theorem c3_defaulted_times_cex :
    (eventV1 emptyDetails "lunch" 0 5 "UTC").«end».dateTime -
      (eventV1 emptyDetails "lunch" 0 5 "UTC").start.dateTime ≠ 3600000 := by
  decide

/-- C8 (amended): in each revision, `start` and `end` always carry the same
timeZone: in V1 it is the process's resolved zone, in V2 the resolved zone
with an `'UTC'` fallback for a falsy zone, and in P0 the hardcoded literal
`'UTC'` regardless of the resolved zone. -/
theorem c8_timezones (d : EventDetails) (q : String) (now1 now2 : Int) (tz : String)
    (sm : String) (st : Int) (en : Option Int) (att : Option (List String)) :
    ((eventV1 d q now1 now2 tz).start.timeZone = tz ∧
     (eventV1 d q now1 now2 tz).«end».timeZone = tz) ∧
    ((eventV2 sm st en att q tz).start.timeZone = (if tz = "" then "UTC" else tz) ∧
     (eventV2 sm st en att q tz).«end».timeZone = (eventV2 sm st en att q tz).start.timeZone) ∧
    ((eventP0 d now1 now2).start.timeZone = "UTC" ∧
     (eventP0 d now1 now2).«end».timeZone = "UTC") :=
  ⟨⟨rfl, rfl⟩, ⟨rfl, rfl⟩, ⟨rfl, rfl⟩⟩

/-- Counterexample for C8 as stated: when the process's resolved zone is
`"Asia/Kolkata"`, the P0 event still carries the literal `"UTC"` on both
blocks — the zone is not the resolved local zone. -/
theorem c8_timezones_cex :
    (eventP0 emptyDetails 0 0).start.timeZone = "UTC" ∧
    (eventP0 emptyDetails 0 0).start.timeZone ≠ "Asia/Kolkata" ∧
    (eventP0 emptyDetails 0 0).«end».timeZone ≠ "Asia/Kolkata" := by
  refine ⟨rfl, by decide, by decide⟩

/-- C9 (amended): V2's `/auth/url` answers 500 without producing a consent
URL when either client credential is unset, and produces the URL when both
are set; V1's `/auth/url` has no such check — it produces a consent URL even
with both credentials unset, using its hardcoded default client id. -/
theorem c9_auth_url_config (cfg : OAuthConfig) (uid : String) :
    ((cfg.clientIdEnv.isNone || cfg.clientSecret.isNone) = true →
      (authUrlV2 cfg (some uid)).status = 500 ∧ (authUrlV2 cfg (some uid)).authUrl = none) ∧
    ((cfg.clientIdEnv.isNone || cfg.clientSecret.isNone) = false →
      (authUrlV2 cfg (some uid)).status = 200 ∧
        (authUrlV2 cfg (some uid)).authUrl.isSome = true) ∧
    ((authUrlV1 cfg (some uid)).status = 200 ∧
      (authUrlV1 cfg (some uid)).authUrl.isSome = true) := by
  refine ⟨?_, ?_, ⟨rfl, rfl⟩⟩
  · intro h
    simp [authUrlV2, h]
  · intro h
    simp [authUrlV2, h]

/-- Witness for C9: unset credentials give 500 and no URL; set credentials
give 200 with a URL. -/
theorem c9_auth_url_config_witness :
    ((authUrlV2 { clientIdEnv := none, clientSecret := none } (some "u1")).status = 500 ∧
     (authUrlV2 { clientIdEnv := none, clientSecret := none } (some "u1")).authUrl = none) ∧
    ((authUrlV2 { clientIdEnv := some "cid", clientSecret := some "sec" }
        (some "u1")).status = 200 ∧
     (authUrlV2 { clientIdEnv := some "cid", clientSecret := some "sec" }
        (some "u1")).authUrl.isSome = true) :=
  ⟨(c9_auth_url_config { clientIdEnv := none, clientSecret := none } "u1").1 rfl,
   (c9_auth_url_config { clientIdEnv := some "cid", clientSecret := some "sec" } "u1").2.1 rfl⟩

/-- Counterexample for C9 as stated: with both client credentials unset, V1
still answers 200 and produces a consent URL (built from its hardcoded
default client id) — no 500 ConfigError. -/
theorem c9_auth_url_config_cex :
    (authUrlV1 { clientIdEnv := none, clientSecret := none } (some "u1")).status = 200 ∧
    (authUrlV1 { clientIdEnv := none, clientSecret := none } (some "u1")).authUrl.isSome
      = true ∧
    (authUrlV1 { clientIdEnv := none, clientSecret := none } (some "u1")).status ≠ 500 := by
  refine ⟨rfl, rfl, by decide⟩

/-- C1 (amended): in V1 and P0, materialization is total — every intent,
including the empty one, yields an event with the deterministic defaults
(fixed-literal summary, defaulted start, empty attendees), and after a
successful extraction the calendar insert is always attempted with exactly
that materialized event, with no error branch in between.  V2 instead
rejects an intent whose summary or startDateTime is absent with a 500
(`'Could not extract event details from query'`) before any calendar
call. -/
theorem c1_materialization_total (store : MapStore) (q uid : String) (tok : Tokens)
    (d : EventDetails) (ir : Except String InsertData) (now1 now2 : Int) (tz : String)
    (hget : mget store uid = some tok)
    (hsum : d.summary = none) (hstart : d.startDateTime = none)
    (hend : d.endDateTime = none) (hatt : d.attendees = none) :
    ((eventV1 d q now1 now2 tz).summary = "New Meeting" ∧
     (eventV1 d q now1 now2 tz).start.dateTime = now1 + 3600000 ∧
     (eventV1 d q now1 now2 tz).«end».dateTime = now2 + 3600000 + 3600000 ∧
     (eventV1 d q now1 now2 tz).attendees = [] ∧
     (eventP0 d now1 now2).summary = "Meeting" ∧
     (eventP0 d now1 now2).start.dateTime = now1 + 3600000 ∧
     (eventP0 d now1 now2).«end».dateTime = now2 + 3600000 + 3600000 ∧
     (eventP0 d now1 now2).attendees = []) ∧
    (∀ d' : EventDetails,
      (scheduleEventV1 store (some q) (some uid) (Except.ok d') ir now1 now2 tz).calls
        = [ExtCall.llm, ExtCall.insertV1 (eventV1 d' q now1 now2 tz)] ∧
      (scheduleEventP0 store (some q) (some uid) (Except.ok d') ir now1 now2).calls
        = [ExtCall.llm, ExtCall.insertP0 (eventP0 d' now1 now2)]) ∧
    (∀ d' : EventDetails, d'.summary = none ∨ d'.startDateTime = none →
      (scheduleEventV2 store (some q) (some uid) true (Except.ok d') ir tz).resp.status = 500 ∧
      (scheduleEventV2 store (some q) (some uid) true (Except.ok d') ir tz).calls
        = [ExtCall.llm]) := by
  refine ⟨⟨?_, ?_, ?_, ?_, ?_, ?_, ?_, ?_⟩, ?_, ?_⟩
  · simp [eventV1, hsum]
  · simp [eventV1, hstart]
  · simp [eventV1, hstart, hend]
  · simp [eventV1, hatt]
  · simp [eventP0, hsum]
  · simp [eventP0, hstart]
  · simp [eventP0, hstart, hend]
  · simp [eventP0, hatt]
  · intro d'
    constructor
    · cases ir with
      | error e =>
        have hred : scheduleEventV1 store (some q) (some uid) (Except.ok d')
            (Except.error e) now1 now2 tz
            = catchV1 store uid e
                [ExtCall.llm, ExtCall.insertV1 (eventV1 d' q now1 now2 tz)] := by
          simp only [scheduleEventV1, hget]
        rw [hred, catchV1_calls]
      | ok ins =>
        simp only [scheduleEventV1, hget]
    · cases ir with
      | error e =>
        have hred : scheduleEventP0 store (some q) (some uid) (Except.ok d')
            (Except.error e) now1 now2
            = catchP0 store uid e
                [ExtCall.llm, ExtCall.insertP0 (eventP0 d' now1 now2)] := by
          simp only [scheduleEventP0, hget]
        rw [hred, catchP0_calls]
      | ok ins =>
        simp only [scheduleEventP0, hget]
  · intro d' hd
    obtain ⟨ds, dst, de, da⟩ := d'
    have hrej : ∀ ds₀ dst₀,
        scheduleEventV2 store (some q) (some uid) true
          (Except.ok ⟨ds₀, dst₀, de, da⟩) ir tz
          = catchV2 store uid "Could not extract event details from query" [ExtCall.llm] →
        (scheduleEventV2 store (some q) (some uid) true
            (Except.ok ⟨ds₀, dst₀, de, da⟩) ir tz).resp.status = 500 ∧
        (scheduleEventV2 store (some q) (some uid) true
            (Except.ok ⟨ds₀, dst₀, de, da⟩) ir tz).calls = [ExtCall.llm] := by
      intro ds₀ dst₀ hred
      rw [hred, catchV2_other _ _ _ _ (by decide) (by decide)]
      exact ⟨rfl, rfl⟩
    cases ds with
    | none =>
      cases dst with
      | none =>
        refine hrej none none ?_
        simp only [scheduleEventV2, hget]
        rfl
      | some st =>
        refine hrej none (some st) ?_
        simp only [scheduleEventV2, hget]
        rfl
    | some sm =>
      cases dst with
      | none =>
        refine hrej (some sm) none ?_
        simp only [scheduleEventV2, hget]
        rfl
      | some st =>
        rcases hd with h | h <;> simp at h

/-- Witness for C1 at a concrete request: the empty intent materializes to
the defaults in V1, the insert is attempted with that event, and V2 answers
500 without a calendar call. -/
theorem c1_materialization_total_witness :
    (eventV1 emptyDetails "plan sync" 0 0 "UTC").summary = "New Meeting" ∧
    (scheduleEventV1 [("u1", ⟨"a", "r"⟩)] (some "plan sync") (some "u1")
        (Except.ok emptyDetails) (Except.ok ⟨"e1", "L"⟩) 0 0 "UTC").calls
      = [ExtCall.llm, ExtCall.insertV1 (eventV1 emptyDetails "plan sync" 0 0 "UTC")] ∧
    (scheduleEventV2 [("u1", ⟨"a", "r"⟩)] (some "plan sync") (some "u1") true
        (Except.ok emptyDetails) (Except.ok ⟨"e1", "L"⟩) "UTC").resp.status = 500 := by
  have h := c1_materialization_total [("u1", ⟨"a", "r"⟩)] "plan sync" "u1" ⟨"a", "r"⟩
    emptyDetails (Except.ok ⟨"e1", "L"⟩) 0 0 "UTC" rfl rfl rfl rfl rfl
  exact ⟨h.1.1, (h.2.1 emptyDetails).1, (h.2.2 emptyDetails (Or.inl rfl)).1⟩

/-- Counterexample for C1 as stated: in V2, a successful extraction that
yields the empty intent hits the guard of `server.js` lines 882-884 — a 500
error response before any calendar call, so an error branch is reachable
between a successful extraction and the insert. -/
theorem c1_materialization_total_cex :
    (scheduleEventV2 [("u1", ⟨"a", "r"⟩)] (some "plan sync") (some "u1") true
        (Except.ok emptyDetails) (Except.ok ⟨"e1", "L"⟩) "UTC").resp.status = 500 ∧
    (scheduleEventV2 [("u1", ⟨"a", "r"⟩)] (some "plan sync") (some "u1") true
        (Except.ok emptyDetails) (Except.ok ⟨"e1", "L"⟩) "UTC").resp.details
      = some "Could not extract event details from query" ∧
    (scheduleEventV2 [("u1", ⟨"a", "r"⟩)] (some "plan sync") (some "u1") true
        (Except.ok emptyDetails) (Except.ok ⟨"e1", "L"⟩) "UTC").calls = [ExtCall.llm] := by
  refine ⟨by decide, by decide, by decide⟩

/-- C2 (amended): when the completion text has no `{...}` substring, extract
returns the empty intent without throwing; when the located substring fails
to parse as JSON, `JSON.parse`'s SyntaxError propagates — extraction throws,
and the orchestrator surfaces it to the caller as an error response (no
success), with no calendar call. -/
theorem c2_extraction_behavior :
    (∀ answer : String, jsonMatch answer = none →
      parseScheduleRequest answer = Except.ok (JVal.obj [])) ∧
    (∀ answer m : String, jsonMatch answer = some m → JSON.parse m = none →
      parseScheduleRequest answer
        = Except.error ("SyntaxError: Unexpected token in JSON at: " ++ m)) ∧
    (∀ (store : MapStore) (q uid e : String) (tok : Tokens)
        (ir : Except String InsertData) (now1 now2 : Int) (tz : String),
      mget store uid = some tok →
      (scheduleEventV1 store (some q) (some uid) (Except.error e) ir now1 now2 tz).resp.success
          = false ∧
      (scheduleEventV1 store (some q) (some uid) (Except.error e) ir now1 now2 tz).calls
          = [ExtCall.llm]) := by
  refine ⟨?_, ?_, ?_⟩
  · intro answer h
    simp only [parseScheduleRequest, h]
  · intro answer m h hp
    simp only [parseScheduleRequest, h, hp]
  · intro store q uid e tok ir now1 now2 tz hget
    have hred : scheduleEventV1 store (some q) (some uid) (Except.error e) ir now1 now2 tz
        = catchV1 store uid e [ExtCall.llm] := by
      simp only [scheduleEventV1, hget]
    constructor
    · rw [hred]
      exact catchV1_success _ _ _ _
    · rw [hred, catchV1_calls]

/-- Witness for C2: prose with no braces gives the empty intent; a brace
substring that is not JSON gives a thrown SyntaxError; that error reaches
the caller as a non-success response. -/
theorem c2_extraction_behavior_witness :
    parseScheduleRequest "the model replied with prose only" = Except.ok (JVal.obj []) ∧
    parseScheduleRequest "x {oops} y"
      = Except.error ("SyntaxError: Unexpected token in JSON at: " ++ "{oops}") ∧
    (scheduleEventV1 [("u1", ⟨"a", "r"⟩)] (some "q") (some "u1")
        (Except.error "SyntaxError: Unexpected token in JSON at: {oops}")
        (Except.ok ⟨"e1", "L"⟩) 0 0 "UTC").resp.success = false :=
  ⟨c2_extraction_behavior.1 "the model replied with prose only" rfl,
   c2_extraction_behavior.2.1 "x {oops} y" "{oops}" rfl rfl,
   (c2_extraction_behavior.2.2 [("u1", ⟨"a", "r"⟩)] "q" "u1"
      "SyntaxError: Unexpected token in JSON at: {oops}" ⟨"a", "r"⟩
      (Except.ok ⟨"e1", "L"⟩) 0 0 "UTC" rfl).1⟩

/-- Counterexample for C2 as stated: the completion text `"{oops}"` contains
a located `{...}` substring that fails to parse as JSON, and extraction does
NOT return the empty intent — it throws (`Except.error`), which the caller
sees as a failure. -/
theorem c2_extraction_behavior_cex :
    (parseScheduleRequest "{oops}").isOk = false ∧
    parseScheduleRequest "{oops}"
      = Except.error ("SyntaxError: Unexpected token in JSON at: " ++ "{oops}") :=
  ⟨rfl, rfl⟩
